import Mathlib

/-!
# NcFile handle lifecycle (cxx4/ncFile.cpp, cxx4/ncFile.h)

A shallow embedding of the `netCDF::NcFile` class: the handle fields, the process-wide
`g_ncid`, and every member function of `ncFile.cpp`, written as explicit state passing over a
`World`.  The netCDF C library is a black box: a `Backend` maps the history of events and the
current call to the status and out-parameters it answers with.  Every library call, every
`free` and every line written to `cerr` is appended to the world's `trace`, so that "which
calls were issued, in which order" is a statement about a list.
-/

namespace netCDF

/-! ## Data model -/

/-- The enum `NcFile::FileMode` (ncFile.h, lines 23-29). -/
inductive FileMode where
  | read
  | write
  | replace
  | newFile
  deriving DecidableEq, Repr

/-- The enum `NcFile::FileFormat` (ncFile.h, lines 31-37). -/
inductive FileFormat where
  | classic
  | classic64
  | nc4
  | nc4classic
  deriving DecidableEq, Repr

/-- The flag constants of `netcdf.h` and `netcdf_mem.h` that `ncFile.cpp` mentions.  The headers
belong to the C library and are not among the sources, so the constants are a parameter of the
embedding. -/
structure NcFlags where
  NC_NOWRITE : Int
  NC_WRITE : Int
  NC_CLOBBER : Int
  NC_NOCLOBBER : Int
  NC_64BIT_OFFSET : Int
  NC_NETCDF4 : Int
  NC_CLASSIC_MODEL : Int
  NC_MEMIO_LOCKED : Int
  deriving DecidableEq, Repr

/-- The values the constants have in the netCDF C library (used for concrete evaluation only). -/
def netcdfFlags : NcFlags :=
  { NC_NOWRITE := 0, NC_WRITE := 1, NC_CLOBBER := 0, NC_NOCLOBBER := 4,
    NC_64BIT_OFFSET := 512, NC_NETCDF4 := 4096, NC_CLASSIC_MODEL := 256,
    NC_MEMIO_LOCKED := 1 }

/-- The exception thrown by `ncCheck`; it carries the status code of the library call. -/
structure NcException where
  retCode : Int
  deriving DecidableEq, Repr

/-- A call into the netCDF C library, with the arguments `ncFile.cpp` passes.  Pointers are
addresses (`0` is `nullptr`). -/
inductive Call where
  | nc_close (ncid : Int)
  | nc_close_memio (ncid : Int)
  | nc_open (path : String) (flags : Int)
  | nc_create (path : String) (flags : Int)
  | nc_open_memio (path : String) (flags : Int) (size : Nat) (memory : Nat) (memflags : Int)
  | nc_create_mem (path : String) (flags : Int) (size : Nat)
  | nc_sync (ncid : Int)
  | nc_enddef (ncid : Int)
  deriving DecidableEq, Repr

/-- What the library answers: the returned status, the value it stores through the `&myId`
out-pointer (`none` when it stores nothing), and the contents of the zero-initialised
`NC_memio` struct after `nc_close_memio`. -/
structure Resp where
  status : Int
  ncid : Option Int
  size : Nat
  memory : Nat
  deriving DecidableEq, Repr

/-- Observable events: a library call with its status, a `free`, a line on `cerr`. -/
inductive Event where
  | call (c : Call) (status : Int)
  | free (memory : Nat)
  | cerr (e : NcException)
  deriving DecidableEq, Repr

/-- The storage engine as a black box: its answer may depend on everything that happened. -/
abbrev Backend := List Event → Call → Resp

/-- The fields of an `NcFile` object: `myId` and `nullObject` (inherited from `NcGroup`) and
`isMemIOFile` (ncFile.h, line 160). -/
structure NcFile where
  myId : Int
  nullObject : Bool
  isMemIOFile : Bool
  deriving DecidableEq, Repr

/-- One handle, the global `g_ncid` (ncFile.cpp, line 12) and the event history. -/
structure World where
  file : NcFile
  g_ncid : Int
  trace : List Event
  deriving DecidableEq, Repr

/-- The outcome of a member function: the world it leaves and either the returned value or the
exception that left the function. -/
abbrev Outcome (α : Type) := World × Except NcException α

/-- Modelled from the spec: the `NcGroup()` base constructor (ncGroup.cpp is not among the
sources) produces a null object whose id is the unset sentinel; `isMemIOFile` starts `false`
(ncFile.h, line 160). -/
def NcFile.null : NcFile :=
  { myId := -1, nullObject := true, isMemIOFile := false }

/-- A freshly constructed handle (`NcFile::NcFile()`) in a process where `g_ncid` has its
initial value `-1` and nothing has happened yet. -/
def World.init : World :=
  { file := NcFile.null, g_ncid := -1, trace := [] }

/-! ## Helpers -/

/-- Modelled from the spec: `ncCheck` (ncCheck.cpp is not among the sources): status zero is
success, any nonzero status is surfaced as an exception carrying it. -/
def ncCheck (retCode : Int) : Except NcException Unit :=
  if retCode = 0 then Except.ok () else Except.error { retCode := retCode }

/-- Issue a library call that takes no id out-pointer; the call is recorded. -/
def invoke (be : Backend) (c : Call) (w : World) : World × Resp :=
  let r := be w.trace c
  ({ w with trace := w.trace ++ [Event.call c r.status] }, r)

/-- The effect of the library writing (or not writing) through the `&myId` out-pointer. -/
def NcFile.storeId (f : NcFile) : Option Int → NcFile
  | some i => { f with myId := i }
  | none => f

/-- Issue a library call that is handed `&myId`: whatever the library stores there lands in
the handle, whether or not the call succeeds. -/
def invokeId (be : Backend) (c : Call) (w : World) : World × Resp :=
  let r := be w.trace c
  ({ w with file := w.file.storeId r.ncid, trace := w.trace ++ [Event.call c r.status] }, r)

/-- The `switch (fFormat)` of both format-taking `open` overloads (ncFile.cpp, lines 143-157
and 205-219). -/
def formatBits (F : NcFlags) : FileFormat → Int
  | FileFormat.classic => 0
  | FileFormat.classic64 => F.NC_64BIT_OFFSET
  | FileFormat.nc4 => F.NC_NETCDF4
  | FileFormat.nc4classic => Int.lor F.NC_NETCDF4 F.NC_CLASSIC_MODEL

/-! ## Member functions -/

/-- The function `NcFile::close` (ncFile.cpp, lines 39-47). -/
def close (be : Backend) (w : World) : Outcome Unit :=
  if w.file.nullObject = false then
    let p := invoke be (Call.nc_close w.file.myId) w
    match ncCheck p.2.status with
    | Except.error e => (p.1, Except.error e)
    | Except.ok _ =>
      ({ p.1 with g_ncid := -1, file := { p.1.file with nullObject := true } }, Except.ok ())
  else
    ({ w with file := { w.file with nullObject := true } }, Except.ok ())

/-- The function `NcFile::close_memio` (ncFile.cpp, lines 51-62); the tuple is
`(success, size, memory)`. -/
def close_memio (be : Backend) (w : World) : Outcome (Bool × Nat × Nat) :=
  if w.file.nullObject = false ∧ w.file.isMemIOFile = true then
    let p := invoke be (Call.nc_close_memio w.file.myId) w
    match ncCheck p.2.status with
    | Except.error e => (p.1, Except.error e)
    | Except.ok _ =>
      ({ p.1 with g_ncid := -1, file := { p.1.file with nullObject := true } },
        Except.ok (true, p.2.size, p.2.memory))
  else
    (w, Except.ok (false, 0, 0))

/-- The statement `if (!nullObject) close();` that starts every `open` overload and `create`. -/
def closeIfOpen (be : Backend) (w : World) : Outcome Unit :=
  if w.file.nullObject = false then close be w else (w, Except.ok ())

/-- The tail shared by the disk overloads: the checked library call through `&myId`, then
`g_ncid = myId; nullObject = false;`. -/
def openDisk (be : Backend) (c : Call) (w : World) : Outcome Unit :=
  let p := invokeId be c w
  match ncCheck p.2.status with
  | Except.error e => (p.1, Except.error e)
  | Except.ok _ =>
    ({ p.1 with g_ncid := p.1.file.myId, file := { p.1.file with nullObject := false } },
      Except.ok ())

/-- The function `NcFile::open(const string&, int)` (ncFile.cpp, lines 87-95). -/
def open_flags (be : Backend) (filePath : String) (ncFileFlags : Int) (w : World) :
    Outcome Unit :=
  match closeIfOpen be w with
  | (w1, Except.error e) => (w1, Except.error e)
  | (w1, Except.ok _) => openDisk be (Call.nc_open filePath ncFileFlags) w1

/-- The library call chosen by the `switch (fMode)` of `open(path, mode)` (lines 106-120). -/
def modeCall (F : NcFlags) (filePath : String) : FileMode → Call
  | FileMode.write => Call.nc_open filePath F.NC_WRITE
  | FileMode.read => Call.nc_open filePath F.NC_NOWRITE
  | FileMode.newFile => Call.nc_create filePath (Int.lor F.NC_NETCDF4 F.NC_NOCLOBBER)
  | FileMode.replace => Call.nc_create filePath (Int.lor F.NC_NETCDF4 F.NC_CLOBBER)

/-- The function `NcFile::open(const string&, FileMode)` (ncFile.cpp, lines 99-125). -/
def open_mode (F : NcFlags) (be : Backend) (filePath : String) (fMode : FileMode) (w : World) :
    Outcome Unit :=
  match closeIfOpen be w with
  | (w1, Except.error e) => (w1, Except.error e)
  | (w1, Except.ok _) => openDisk be (modeCall F filePath fMode) w1

/-- The library call chosen by the `switch (fMode)` of `open(path, mode, format)`
(lines 220-234), given the computed `format` word. -/
def modeFormatCall (F : NcFlags) (filePath : String) (format : Int) : FileMode → Call
  | FileMode.write => Call.nc_open filePath (Int.lor format F.NC_WRITE)
  | FileMode.read => Call.nc_open filePath (Int.lor format F.NC_NOWRITE)
  | FileMode.newFile => Call.nc_create filePath (Int.lor format F.NC_NOCLOBBER)
  | FileMode.replace => Call.nc_create filePath (Int.lor format F.NC_CLOBBER)

/-- The function `NcFile::open(const string&, FileMode, FileFormat)` (ncFile.cpp,
lines 199-238). -/
def open_mode_format (F : NcFlags) (be : Backend) (filePath : String) (fMode : FileMode)
    (fFormat : FileFormat) (w : World) : Outcome Unit :=
  match closeIfOpen be w with
  | (w1, Except.error e) => (w1, Except.error e)
  | (w1, Except.ok _) => openDisk be (modeFormatCall F filePath (formatBits F fFormat) fMode) w1

/-- The library call chosen by the `switch (fMode)` of the memory overload (lines 158-170),
given the computed `format` word and the filled-in `NC_memio`. -/
def memCall (F : NcFlags) (path : String) (format : Int) (size memory : Nat) (memflags : Int) :
    FileMode → Call
  | FileMode.write => Call.nc_open_memio path (Int.lor format F.NC_WRITE) size memory memflags
  | FileMode.read => Call.nc_open_memio path (Int.lor format F.NC_WRITE) size memory memflags
  | FileMode.newFile => Call.nc_create_mem path (Int.lor format F.NC_WRITE) size
  | FileMode.replace => Call.nc_create_mem path (Int.lor format F.NC_WRITE) size

/-- The memory overload `NcFile::open(path, fMode, fFormat, size, memory, memory_locked)`
(ncFile.cpp, lines 128-175). -/
def open_memio (F : NcFlags) (be : Backend) (path : String) (fMode : FileMode)
    (fFormat : FileFormat) (size memory : Nat) (memory_locked : Bool) (w : World) :
    Outcome Unit :=
  match closeIfOpen be w with
  | (w1, Except.error e) => (w1, Except.error e)
  | (w1, Except.ok _) =>
    let memflags : Int := if memory_locked then F.NC_MEMIO_LOCKED else 0
    let p := invokeId be (memCall F path (formatBits F fFormat) size memory memflags fMode) w1
    match ncCheck p.2.status with
    | Except.error e => (p.1, Except.error e)
    | Except.ok _ =>
      ({ p.1 with
          g_ncid := p.1.file.myId,
          file := { p.1.file with isMemIOFile := true, nullObject := false } },
        Except.ok ())

/-- The function `NcFile::create` (ncFile.cpp, lines 188-197). -/
def create (be : Backend) (filePath : String) (ncFileFlags : Int) (w : World) : Outcome Unit :=
  match closeIfOpen be w with
  | (w1, Except.error e) => (w1, Except.error e)
  | (w1, Except.ok _) => openDisk be (Call.nc_create filePath ncFileFlags) w1

/-- The function `NcFile::sync` (ncFile.cpp, lines 241-243). -/
def sync (be : Backend) (w : World) : Outcome Unit :=
  let p := invoke be (Call.nc_sync w.file.myId) w
  (p.1, ncCheck p.2.status)

/-- The function `NcFile::enddef` (ncFile.cpp, lines 246-248). -/
def enddef (be : Backend) (w : World) : Outcome Unit :=
  let p := invoke be (Call.nc_enddef w.file.myId) w
  (p.1, ncCheck p.2.status)

/-- The `try` block of the destructor (ncFile.cpp, lines 22-31). -/
def destructorBody (be : Backend) (w : World) : Outcome Unit :=
  if w.file.isMemIOFile = false then
    close be w
  else
    match close_memio be w with
    | (w1, Except.error e) => (w1, Except.error e)
    | (w1, Except.ok (memclose_success, _, memory)) =>
      if memclose_success = true then
        ({ w1 with trace := w1.trace ++ [Event.free memory] }, Except.ok ())
      else
        (w1, Except.ok ())

/-- The destructor `NcFile::~NcFile` (ncFile.cpp, lines 15-37): the body under
`catch (NcException &e)`, whose handler writes `e.what()` to `cerr`. -/
def destructor (be : Backend) (w : World) : Outcome Unit :=
  match destructorBody be w with
  | (w1, Except.error e) => ({ w1 with trace := w1.trace ++ [Event.cerr e] }, Except.ok ())
  | (w1, Except.ok _) => (w1, Except.ok ())

/-! ## Sequences of operations -/

/-- The five ways of starting a session: the four `open` overloads and `create`. -/
inductive OpenOp where
  | open_flags (filePath : String) (ncFileFlags : Int)
  | open_mode (filePath : String) (fMode : FileMode)
  | open_mode_format (filePath : String) (fMode : FileMode) (fFormat : FileFormat)
  | open_memio (path : String) (fMode : FileMode) (fFormat : FileFormat) (size memory : Nat)
      (memory_locked : Bool)
  | create (filePath : String) (ncFileFlags : Int)
  deriving DecidableEq, Repr

/-- Run one of the session-starting member functions. -/
def OpenOp.exec (F : NcFlags) (be : Backend) : OpenOp → World → Outcome Unit
  | OpenOp.open_flags p fl => netCDF.open_flags be p fl
  | OpenOp.open_mode p m => netCDF.open_mode F be p m
  | OpenOp.open_mode_format p m f => netCDF.open_mode_format F be p m f
  | OpenOp.open_memio p m f s mem l => netCDF.open_memio F be p m f s mem l
  | OpenOp.create p fl => netCDF.create be p fl

/-- The library call a session-starting member function issues once any prior session is
closed. -/
def OpenOp.call (F : NcFlags) : OpenOp → Call
  | OpenOp.open_flags p fl => Call.nc_open p fl
  | OpenOp.open_mode p m => modeCall F p m
  | OpenOp.open_mode_format p m f => modeFormatCall F p (formatBits F f) m
  | OpenOp.open_memio p m f s mem l =>
    memCall F p (formatBits F f) s mem (if l then F.NC_MEMIO_LOCKED else 0) m
  | OpenOp.create p fl => Call.nc_create p fl

/-- The public operations a client can apply to a live handle. -/
inductive Op where
  | start (o : OpenOp)
  | close
  | close_memio
  | sync
  | enddef
  deriving DecidableEq, Repr

/-- Apply one operation; an exception is caught by the client, who keeps the handle. -/
def Op.step (F : NcFlags) (be : Backend) : Op → World → World
  | Op.start o, w => (o.exec F be w).1
  | Op.close, w => (netCDF.close be w).1
  | Op.close_memio, w => (netCDF.close_memio be w).1
  | Op.sync, w => (netCDF.sync be w).1
  | Op.enddef, w => (netCDF.enddef be w).1

/-- Apply a sequence of operations, first to last. -/
def run (F : NcFlags) (be : Backend) (ops : List Op) (w : World) : World :=
  ops.foldl (fun acc op => op.step F be acc) w

/-- Does the event record a library call that closes a session? -/
def Event.isClose : Event → Bool
  | Event.call (Call.nc_close _) _ => true
  | Event.call (Call.nc_close_memio _) _ => true
  | _ => false

/-- Does the event record a library call that opens or creates a dataset? -/
def Event.isOpenCreate : Event → Bool
  | Event.call (Call.nc_open _ _) _ => true
  | Event.call (Call.nc_create _ _) _ => true
  | Event.call (Call.nc_open_memio _ _ _ _ _) _ => true
  | Event.call (Call.nc_create_mem _ _ _) _ => true
  | _ => false

/-! ## Backends used for concrete evaluation -/

/-- A library in which every call succeeds; sessions get the id `7`, and `nc_close_memio` hands
back a 16-byte buffer at address `4096`. -/
def okBackend : Backend :=
  fun _ _ => { status := 0, ncid := some 7, size := 16, memory := 4096 }

/-- A library in which every call fails with status `-33` and stores nothing. -/
def failBackend : Backend :=
  fun _ _ => { status := -33, ncid := none, size := 0, memory := 0 }

/-- A library in which opening and creating succeed (id `7`) and everything else fails with
status `-33`. -/
def closeFailBackend : Backend :=
  fun _ c =>
    match c with
    | Call.nc_open _ _ => { status := 0, ncid := some 7, size := 0, memory := 0 }
    | Call.nc_create _ _ => { status := 0, ncid := some 7, size := 0, memory := 0 }
    | Call.nc_open_memio _ _ _ _ _ => { status := 0, ncid := some 7, size := 0, memory := 0 }
    | Call.nc_create_mem _ _ _ => { status := 0, ncid := some 7, size := 0, memory := 0 }
    | _ => { status := -33, ncid := none, size := 0, memory := 0 }

/-- A library in which opening and creating fail with status `-33` (storing nothing) and
everything else succeeds. -/
def openFailBackend : Backend :=
  fun _ c =>
    match c with
    | Call.nc_open _ _ => { status := -33, ncid := none, size := 0, memory := 0 }
    | Call.nc_create _ _ => { status := -33, ncid := none, size := 0, memory := 0 }
    | Call.nc_open_memio _ _ _ _ _ => { status := -33, ncid := none, size := 0, memory := 0 }
    | Call.nc_create_mem _ _ _ => { status := -33, ncid := none, size := 0, memory := 0 }
    | _ => { status := 0, ncid := none, size := 0, memory := 0 }

/-- A handle with an open disk session: the result of `open("a.nc", 0)` on a fresh handle when
the library succeeds. -/
def diskWorld : World := (open_flags okBackend "a.nc" 0 World.init).1

/-- The library call by which the destructor ends an open session: `nc_close_memio` when the
handle is marked memory-backed, `nc_close` otherwise. -/
def closingCall (w : World) : Call :=
  if w.file.isMemIOFile = true then Call.nc_close_memio w.file.myId
  else Call.nc_close w.file.myId

/-- The buffer `(size, memory)` handed to the most recent successful `nc_open_memio`. -/
def lastMemioBuffer (tr : List Event) : Nat × Nat :=
  tr.foldl
    (fun acc e =>
      match e with
      | Event.call (Call.nc_open_memio _ _ size memory _) 0 => (size, memory)
      | _ => acc)
    (0, 0)

/-- A library that honours a locked buffer: every call succeeds, sessions get the id `7`, and
`nc_close_memio` returns the very buffer that was supplied to `nc_open_memio`. -/
def lockedBackend : Backend :=
  fun tr c =>
    match c with
    | Call.nc_close_memio _ =>
      { status := 0, ncid := none, size := (lastMemioBuffer tr).1,
        memory := (lastMemioBuffer tr).2 }
    | _ => { status := 0, ncid := some 7, size := 0, memory := 0 }

/-- A library whose successful open/create calls always store a session id, and never the
unset sentinel `-1`. -/
def Backend.issuesValidIds (be : Backend) : Prop :=
  ∀ tr c, (be tr c).status = 0 → (Event.call c 0).isOpenCreate = true →
    ∃ i, (be tr c).ncid = some i ∧ i ≠ -1

/-- The global `g_ncid` follows the handle: it is `-1` while the handle is Null and the
handle's id while it is open. -/
def World.tracked (w : World) : Prop :=
  w.g_ncid = if w.file.nullObject = true then -1 else w.file.myId

/-- An open handle holds an id other than the unset sentinel. -/
def World.validId (w : World) : Prop :=
  w.file.nullObject = false → w.file.myId ≠ -1

/-! ## The flag table as the specification words it -/

/-- Format bits as specified: classic = no bits, classic64 = the 64-bit-offset bit, nc4 = the
enhanced-model bit, nc4classic = enhanced-model and classic-model-restriction bits. -/
def specFormatBits (F : NcFlags) (fFormat : FileFormat) : Int :=
  match fFormat with
  | FileFormat.classic => 0
  | FileFormat.classic64 => F.NC_64BIT_OFFSET
  | FileFormat.nc4 => F.NC_NETCDF4
  | FileFormat.nc4classic => Int.lor F.NC_NETCDF4 F.NC_CLASSIC_MODEL

/-- Mode bit as specified: read = read-only, write = writable, newFile = no-clobber,
replace = clobber. -/
def specModeBit (F : NcFlags) (fMode : FileMode) : Int :=
  match fMode with
  | FileMode.read => F.NC_NOWRITE
  | FileMode.write => F.NC_WRITE
  | FileMode.newFile => F.NC_NOCLOBBER
  | FileMode.replace => F.NC_CLOBBER

/-- The single library call as specified for `open(path, mode, format)`: the open call for
read and write, the create call for newFile and replace, with the OR of format bits and mode
bit as flag word. -/
def specCall (F : NcFlags) (filePath : String) (fMode : FileMode) (fFormat : FileFormat) :
    Call :=
  match fMode with
  | FileMode.read => Call.nc_open filePath (Int.lor (specFormatBits F fFormat) (specModeBit F fMode))
  | FileMode.write => Call.nc_open filePath (Int.lor (specFormatBits F fFormat) (specModeBit F fMode))
  | FileMode.newFile =>
    Call.nc_create filePath (Int.lor (specFormatBits F fFormat) (specModeBit F fMode))
  | FileMode.replace =>
    Call.nc_create filePath (Int.lor (specFormatBits F fFormat) (specModeBit F fMode))

/-! ## Basic facts about `ncCheck`, `close` and the implicit close -/

theorem ncCheck_zero : ncCheck 0 = Except.ok () := rfl

theorem ncCheck_ne_zero (s : Int) (h : s ≠ 0) : ncCheck s = Except.error { retCode := s } := by
  simp [ncCheck, h]

theorem close_of_null (be : Backend) (w : World) (h : w.file.nullObject = true) :
    close be w = (w, Except.ok ()) := by
  obtain ⟨⟨i, n, m⟩, g, t⟩ := w
  simp only at h
  subst h
  simp [close]

theorem close_of_open_ok (be : Backend) (w : World) (h : w.file.nullObject = false)
    (hs : (be w.trace (Call.nc_close w.file.myId)).status = 0) :
    close be w =
      ({ file := { w.file with nullObject := true }, g_ncid := -1,
         trace := w.trace ++ [Event.call (Call.nc_close w.file.myId) 0] }, Except.ok ()) := by
  simp [close, h, invoke, hs, ncCheck]

theorem close_of_open_fail (be : Backend) (w : World) (h : w.file.nullObject = false)
    (hs : (be w.trace (Call.nc_close w.file.myId)).status ≠ 0) :
    close be w =
      ({ w with trace := w.trace ++
            [Event.call (Call.nc_close w.file.myId)
              (be w.trace (Call.nc_close w.file.myId)).status] },
        Except.error { retCode := (be w.trace (Call.nc_close w.file.myId)).status }) := by
  simp [close, h, invoke, hs, ncCheck]

theorem closeIfOpen_of_null (be : Backend) (w : World) (h : w.file.nullObject = true) :
    closeIfOpen be w = (w, Except.ok ()) := by
  simp [closeIfOpen, h]

theorem closeIfOpen_of_open (be : Backend) (w : World) (h : w.file.nullObject = false) :
    closeIfOpen be w = close be w := by
  simp [closeIfOpen, h]

/-! ## The session-starting functions, uniformly -/

@[simp] theorem storeId_nullObject (f : NcFile) (o : Option Int) :
    (f.storeId o).nullObject = f.nullObject := by
  cases o <;> rfl

@[simp] theorem storeId_isMemIOFile (f : NcFile) (o : Option Int) :
    (f.storeId o).isMemIOFile = f.isMemIOFile := by
  cases o <;> rfl

theorem exec_of_close_error (F : NcFlags) (be : Backend) (o : OpenOp) (w w1 : World)
    (e : NcException) (h : closeIfOpen be w = (w1, Except.error e)) :
    o.exec F be w = (w1, Except.error e) := by
  cases o <;>
    simp [OpenOp.exec, open_flags, open_mode, open_mode_format, open_memio, create, h]

theorem exec_of_close_ok (F : NcFlags) (be : Backend) (o : OpenOp) (w w1 : World)
    (h : closeIfOpen be w = (w1, Except.ok ())) :
    (o.exec F be w).2 = ncCheck (be w1.trace (o.call F)).status ∧
    (o.exec F be w).1.trace =
      w1.trace ++ [Event.call (o.call F) (be w1.trace (o.call F)).status] ∧
    (o.exec F be w).1.file.nullObject =
      (if (be w1.trace (o.call F)).status = 0 then false else w1.file.nullObject) ∧
    (o.exec F be w).1.g_ncid =
      (if (be w1.trace (o.call F)).status = 0 then (o.exec F be w).1.file.myId
        else w1.g_ncid) ∧
    (o.exec F be w).1.file.myId = (w1.file.storeId (be w1.trace (o.call F)).ncid).myId := by
  by_cases hs : (be w1.trace (o.call F)).status = 0 <;>
  cases o <;>
    simp [OpenOp.exec, OpenOp.call, open_flags, open_mode, open_mode_format, open_memio,
      create, h, openDisk, invokeId, ncCheck] at hs ⊢ <;>
    simp [hs]

theorem call_not_close (F : NcFlags) (o : OpenOp) (st : Int) :
    (Event.call (o.call F) st).isClose = false ∧
    (Event.call (o.call F) st).isOpenCreate = true := by
  cases o with
  | open_flags p fl => exact ⟨rfl, rfl⟩
  | create p fl => exact ⟨rfl, rfl⟩
  | open_mode p m => cases m <;> exact ⟨rfl, rfl⟩
  | open_mode_format p m f => cases m <;> exact ⟨rfl, rfl⟩
  | open_memio p m f s mem l => cases m <;> exact ⟨rfl, rfl⟩

/-! ## The destructor -/

theorem destructor_of_null (be : Backend) (w : World) (h : w.file.nullObject = true) :
    destructor be w = (w, Except.ok ()) := by
  by_cases hm : w.file.isMemIOFile = true
  · simp [destructor, destructorBody, hm, close_memio, h]
  · have hm' : w.file.isMemIOFile = false := by simpa using hm
    simp [destructor, destructorBody, hm', close_of_null be w h]

theorem destructor_of_open_ok (be : Backend) (w : World) (h : w.file.nullObject = false)
    (hs : (be w.trace (closingCall w)).status = 0) :
    destructor be w =
      ({ file := { w.file with nullObject := true }, g_ncid := -1,
         trace := w.trace ++ Event.call (closingCall w) 0 ::
           (if w.file.isMemIOFile = true then [Event.free (be w.trace (closingCall w)).memory]
            else []) },
        Except.ok ()) := by
  by_cases hm : w.file.isMemIOFile = true
  · simp only [closingCall, hm, if_true] at hs ⊢
    simp [destructor, destructorBody, hm, close_memio, h, invoke, hs, ncCheck]
  · have hm' : w.file.isMemIOFile = false := by simpa using hm
    simp only [closingCall, hm', Bool.false_eq_true, if_false] at hs ⊢
    simp [destructor, destructorBody, hm', close_of_open_ok be w h hs]

theorem destructor_of_open_fail (be : Backend) (w : World) (h : w.file.nullObject = false)
    (hs : (be w.trace (closingCall w)).status ≠ 0) :
    destructor be w =
      ({ w with trace := w.trace ++
          [Event.call (closingCall w) (be w.trace (closingCall w)).status,
            Event.cerr { retCode := (be w.trace (closingCall w)).status }] },
        Except.ok ()) := by
  by_cases hm : w.file.isMemIOFile = true
  · simp only [closingCall, hm, if_true] at hs ⊢
    simp [destructor, destructorBody, hm, close_memio, h, invoke, hs, ncCheck]
  · have hm' : w.file.isMemIOFile = false := by simpa using hm
    simp only [closingCall, hm', Bool.false_eq_true, if_false] at hs ⊢
    simp [destructor, destructorBody, hm', close_of_open_fail be w h hs]

/-! ## The memory-backed mark -/

theorem openDisk_isMemIOFile (be : Backend) (c : Call) (w : World) :
    (openDisk be c w).1.file.isMemIOFile = w.file.isMemIOFile := by
  by_cases hs : (be w.trace c).status = 0 <;> simp [openDisk, invokeId, ncCheck, hs]

theorem close_isMemIOFile (be : Backend) (w : World) :
    (close be w).1.file.isMemIOFile = w.file.isMemIOFile := by
  by_cases hn : w.file.nullObject = false
  · by_cases hs : (be w.trace (Call.nc_close w.file.myId)).status = 0 <;>
      simp [close, hn, invoke, ncCheck, hs]
  · simp [close, hn]

theorem close_memio_isMemIOFile (be : Backend) (w : World) :
    (close_memio be w).1.file.isMemIOFile = w.file.isMemIOFile := by
  by_cases hn : w.file.nullObject = false ∧ w.file.isMemIOFile = true
  · by_cases hs : (be w.trace (Call.nc_close_memio w.file.myId)).status = 0 <;>
      simp [close_memio, hn, invoke, ncCheck, hs]
  · simp [close_memio, hn]

/-- No disk-opening function and no closing function ever clears the memory-backed mark. -/
theorem open_flags_keeps_mark (be : Backend) (filePath : String) (ncFileFlags : Int)
    (w : World) :
    (open_flags be filePath ncFileFlags w).1.file.isMemIOFile = w.file.isMemIOFile := by
  unfold open_flags
  by_cases hn : w.file.nullObject = false
  · have hc := close_isMemIOFile be w
    rw [closeIfOpen_of_open be w hn]
    rcases hcl : close be w with ⟨w1, r⟩
    rw [hcl] at hc
    cases r with
    | error e => simpa using hc
    | ok u => simpa [openDisk_isMemIOFile] using hc
  · have hn' : w.file.nullObject = true := by simpa using hn
    rw [closeIfOpen_of_null be w hn']
    simp [openDisk_isMemIOFile]

/-! ## Invariants along sequences of operations -/

theorem exec_tracked (F : NcFlags) (be : Backend) (o : OpenOp) (w : World) (h : w.tracked) :
    (o.exec F be w).1.tracked := by
  have post : ∀ w1, closeIfOpen be w = (w1, Except.ok ()) → w1.file.nullObject = true →
      w1.g_ncid = -1 → (o.exec F be w).1.tracked := by
    intro w1 hc hn hg
    obtain ⟨-, -, hnull, hg', -⟩ := exec_of_close_ok F be o w w1 hc
    unfold World.tracked
    by_cases hs : (be w1.trace (o.call F)).status = 0
    · rw [hnull, hg']
      simp [hs]
    · rw [hnull, hg']
      simp [hs, hn, hg]
  by_cases hn : w.file.nullObject = true
  · exact post w (closeIfOpen_of_null be w hn) hn (by simpa [World.tracked, hn] using h)
  · have hn' : w.file.nullObject = false := by simpa using hn
    by_cases hs : (be w.trace (Call.nc_close w.file.myId)).status = 0
    · exact post _ ((closeIfOpen_of_open be w hn').trans (close_of_open_ok be w hn' hs)) rfl rfl
    · rw [exec_of_close_error F be o w _ _
        ((closeIfOpen_of_open be w hn').trans (close_of_open_fail be w hn' hs))]
      simpa [World.tracked] using h

theorem exec_validId (F : NcFlags) (be : Backend) (hbe : be.issuesValidIds) (o : OpenOp)
    (w : World) (h : w.validId) : (o.exec F be w).1.validId := by
  have post : ∀ w1, closeIfOpen be w = (w1, Except.ok ()) → w1.file.nullObject = true →
      (o.exec F be w).1.validId := by
    intro w1 hc hn
    obtain ⟨-, -, hnull, -, hid⟩ := exec_of_close_ok F be o w w1 hc
    unfold World.validId
    by_cases hs : (be w1.trace (o.call F)).status = 0
    · obtain ⟨i, hi, hne⟩ := hbe w1.trace (o.call F) hs (call_not_close F o 0).2
      intro _
      rw [hid, hi]
      exact hne
    · rw [hnull]
      simp [hs, hn]
  by_cases hn : w.file.nullObject = true
  · exact post w (closeIfOpen_of_null be w hn) hn
  · have hn' : w.file.nullObject = false := by simpa using hn
    by_cases hs : (be w.trace (Call.nc_close w.file.myId)).status = 0
    · exact post _ ((closeIfOpen_of_open be w hn').trans (close_of_open_ok be w hn' hs)) rfl
    · rw [exec_of_close_error F be o w _ _
        ((closeIfOpen_of_open be w hn').trans (close_of_open_fail be w hn' hs))]
      simpa [World.validId] using h

theorem close_tracked (be : Backend) (w : World) (h : w.tracked) : (close be w).1.tracked := by
  by_cases hn : w.file.nullObject = true
  · rw [close_of_null be w hn]
    exact h
  · have hn' : w.file.nullObject = false := by simpa using hn
    by_cases hs : (be w.trace (Call.nc_close w.file.myId)).status = 0
    · rw [close_of_open_ok be w hn' hs]
      simp [World.tracked]
    · rw [close_of_open_fail be w hn' hs]
      simpa [World.tracked] using h

theorem close_validId (be : Backend) (w : World) (h : w.validId) : (close be w).1.validId := by
  by_cases hn : w.file.nullObject = true
  · rw [close_of_null be w hn]
    exact h
  · have hn' : w.file.nullObject = false := by simpa using hn
    by_cases hs : (be w.trace (Call.nc_close w.file.myId)).status = 0
    · rw [close_of_open_ok be w hn' hs]
      simp [World.validId]
    · rw [close_of_open_fail be w hn' hs]
      simpa [World.validId] using h

theorem close_memio_tracked (be : Backend) (w : World) (h : w.tracked) :
    (close_memio be w).1.tracked := by
  by_cases hc : w.file.nullObject = false ∧ w.file.isMemIOFile = true
  · by_cases hs : (be w.trace (Call.nc_close_memio w.file.myId)).status = 0
    · simp [close_memio, hc, invoke, ncCheck, hs, World.tracked]
    · simpa [close_memio, hc, invoke, ncCheck, hs, World.tracked] using h
  · simpa [close_memio, hc] using h

theorem close_memio_validId (be : Backend) (w : World) (h : w.validId) :
    (close_memio be w).1.validId := by
  by_cases hc : w.file.nullObject = false ∧ w.file.isMemIOFile = true
  · by_cases hs : (be w.trace (Call.nc_close_memio w.file.myId)).status = 0
    · simp [close_memio, hc, invoke, ncCheck, hs, World.validId]
    · simpa [close_memio, hc, invoke, ncCheck, hs, World.validId] using h
  · simpa [close_memio, hc] using h

theorem step_tracked (F : NcFlags) (be : Backend) (op : Op) (w : World) (h : w.tracked) :
    (op.step F be w).tracked := by
  cases op with
  | start o => exact exec_tracked F be o w h
  | close => exact close_tracked be w h
  | close_memio => exact close_memio_tracked be w h
  | sync => simpa [Op.step, sync, invoke, World.tracked] using h
  | enddef => simpa [Op.step, enddef, invoke, World.tracked] using h

theorem step_validId (F : NcFlags) (be : Backend) (hbe : be.issuesValidIds) (op : Op)
    (w : World) (h : w.validId) : (op.step F be w).validId := by
  cases op with
  | start o => exact exec_validId F be hbe o w h
  | close => exact close_validId be w h
  | close_memio => exact close_memio_validId be w h
  | sync => simpa [Op.step, sync, invoke, World.validId] using h
  | enddef => simpa [Op.step, enddef, invoke, World.validId] using h

theorem run_preserves (F : NcFlags) (be : Backend) (P : World → Prop)
    (hstep : ∀ op w, P w → P (Op.step F be op w)) :
    ∀ (ops : List Op) (w : World), P w → P (run F be ops w) := by
  intro ops
  induction ops with
  | nil => intro w hw; exact hw
  | cons op ops ih =>
    intro w hw
    exact ih _ (hstep op w hw)

theorem run_tracked (F : NcFlags) (be : Backend) (ops : List Op) :
    (run F be ops World.init).tracked :=
  run_preserves F be World.tracked (step_tracked F be) ops World.init rfl

theorem run_validId (F : NcFlags) (be : Backend) (hbe : be.issuesValidIds) (ops : List Op) :
    (run F be ops World.init).validId :=
  run_preserves F be World.validId (step_validId F be hbe) ops World.init
    (fun h => absurd h (by decide))

theorem close_ok_null (be : Backend) (w : World) (h : (close be w).2 = Except.ok ()) :
    (close be w).1.file.nullObject = true := by
  by_cases hn : w.file.nullObject = true
  · rw [close_of_null be w hn]
    exact hn
  · have hn' : w.file.nullObject = false := by simpa using hn
    by_cases hs : (be w.trace (Call.nc_close w.file.myId)).status = 0
    · rw [close_of_open_ok be w hn' hs]
    · rw [close_of_open_fail be w hn' hs] at h
      cases h

theorem close_memio_ok_null (be : Backend) (w : World) (size memory : Nat)
    (h : (close_memio be w).2 = Except.ok (true, size, memory)) :
    (close_memio be w).1.file.nullObject = true := by
  by_cases hc : w.file.nullObject = false ∧ w.file.isMemIOFile = true
  · by_cases hs : (be w.trace (Call.nc_close_memio w.file.myId)).status = 0
    · simp [close_memio, hc, invoke, ncCheck, hs]
    · simp [close_memio, hc, invoke, ncCheck, hs] at h
  · simp [close_memio, hc] at h

/-! ## Claims -/

/-- C1: from a Null handle, with a library that answers status 0 to every call,
`open(path, mode, format)` succeeds and opens the handle, the following `close()` succeeds and
leaves the handle Null, and a second `close()` returns normally and leaves the whole world
(handle fields, `g_ncid`, the list of issued library calls) exactly as it was. -/
theorem open_close_close_null (F : NcFlags) (be : Backend) (filePath : String)
    (fMode : FileMode) (fFormat : FileFormat) (w : World)
    (hbe : ∀ tr c, (be tr c).status = 0) (hnull : w.file.nullObject = true) :
    (open_mode_format F be filePath fMode fFormat w).2 = Except.ok () ∧
    (open_mode_format F be filePath fMode fFormat w).1.file.nullObject = false ∧
    (close be (open_mode_format F be filePath fMode fFormat w).1).2 = Except.ok () ∧
    (close be (open_mode_format F be filePath fMode fFormat w).1).1.file.nullObject = true ∧
    close be (close be (open_mode_format F be filePath fMode fFormat w).1).1 =
      ((close be (open_mode_format F be filePath fMode fFormat w).1).1, Except.ok ()) := by
  have hex := exec_of_close_ok F be (OpenOp.open_mode_format filePath fMode fFormat) w w
    (closeIfOpen_of_null be w hnull)
  simp only [OpenOp.exec, hbe, ncCheck_zero, if_true] at hex
  obtain ⟨h2, -, hn, -, -⟩ := hex
  have hc := close_of_open_ok be _ hn (hbe _ _)
  refine ⟨h2, hn, ?_, ?_, ?_⟩
  · rw [hc]
  · rw [hc]
  · rw [hc]
    exact close_of_null be _ rfl

/-- C1 witness: the real flag values, the always-succeeding library, a fresh handle. -/
theorem open_close_close_null_witness :
    (∀ tr c, (okBackend tr c).status = 0) ∧ World.init.file.nullObject = true ∧
    ((open_mode_format netcdfFlags okBackend "a.nc" FileMode.replace FileFormat.nc4
        World.init).2 = Except.ok () ∧
     (open_mode_format netcdfFlags okBackend "a.nc" FileMode.replace FileFormat.nc4
        World.init).1.file.nullObject = false ∧
     (close okBackend (open_mode_format netcdfFlags okBackend "a.nc" FileMode.replace
        FileFormat.nc4 World.init).1).2 = Except.ok () ∧
     (close okBackend (open_mode_format netcdfFlags okBackend "a.nc" FileMode.replace
        FileFormat.nc4 World.init).1).1.file.nullObject = true ∧
     close okBackend (close okBackend (open_mode_format netcdfFlags okBackend "a.nc"
        FileMode.replace FileFormat.nc4 World.init).1).1 =
       ((close okBackend (open_mode_format netcdfFlags okBackend "a.nc" FileMode.replace
        FileFormat.nc4 World.init).1).1, Except.ok ())) :=
  ⟨fun _ _ => rfl, rfl,
    open_close_close_null netcdfFlags okBackend "a.nc" FileMode.replace FileFormat.nc4
      World.init (fun _ _ => rfl) rfl⟩

/-- On a handle that is Null, or that is open and not marked memory-backed, `close_memio()`
returns `(false, 0, nullptr)` without raising, and the world it leaves is the world it found:
no library call is recorded and `myId`, `nullObject`, `isMemIOFile` and `g_ncid` are
unchanged. -/
theorem close_memio_of_unmarked (be : Backend) (w : World)
    (h : w.file.nullObject = true ∨ w.file.isMemIOFile = false) :
    close_memio be w = (w, Except.ok (false, 0, 0)) := by
  rcases h with h | h <;> simp [close_memio, h]

/-- C2 (evaluation at the failing input): a handle that had a memory-backed session, closed it
with `close_memio()`, and then ran a successful `open("a.nc", 0)` holds an open disk session
(its last open/create call is `nc_open`) but is still marked memory-backed.  On this
disk-backed handle `close_memio()` does not answer `(false, 0, nullptr)`: it issues
`nc_close_memio` on the disk session, returns `(true, 16, 4096)`, resets `g_ncid` and leaves
the handle Null. -/
theorem close_memio_on_reopened_disk_handle :
    (run netcdfFlags okBackend
      [Op.start (OpenOp.open_memio "m.nc" FileMode.newFile FileFormat.nc4 16 0 false),
        Op.close_memio, Op.start (OpenOp.open_flags "a.nc" 0)] World.init) =
      { file := { myId := 7, nullObject := false, isMemIOFile := true },
        g_ncid := 7,
        trace := [Event.call (Call.nc_create_mem "m.nc" 4097 16) 0,
          Event.call (Call.nc_close_memio 7) 0,
          Event.call (Call.nc_open "a.nc" 0) 0] } ∧
    close_memio okBackend (run netcdfFlags okBackend
      [Op.start (OpenOp.open_memio "m.nc" FileMode.newFile FileFormat.nc4 16 0 false),
        Op.close_memio, Op.start (OpenOp.open_flags "a.nc" 0)] World.init) =
      ({ file := { myId := 7, nullObject := true, isMemIOFile := true },
         g_ncid := -1,
         trace := [Event.call (Call.nc_create_mem "m.nc" 4097 16) 0,
           Event.call (Call.nc_close_memio 7) 0,
           Event.call (Call.nc_open "a.nc" 0) 0,
           Event.call (Call.nc_close_memio 7) 0] },
        Except.ok (true, 16, 4096)) ∧
    close_memio okBackend (run netcdfFlags okBackend
      [Op.start (OpenOp.open_memio "m.nc" FileMode.newFile FileFormat.nc4 16 0 false),
        Op.close_memio, Op.start (OpenOp.open_flags "a.nc" 0)] World.init) ≠
      (run netcdfFlags okBackend
        [Op.start (OpenOp.open_memio "m.nc" FileMode.newFile FileFormat.nc4 16 0 false),
          Op.close_memio, Op.start (OpenOp.open_flags "a.nc" 0)] World.init,
        Except.ok (false, 0, 0)) := by
  have h1 : (run netcdfFlags okBackend
      [Op.start (OpenOp.open_memio "m.nc" FileMode.newFile FileFormat.nc4 16 0 false),
        Op.close_memio, Op.start (OpenOp.open_flags "a.nc" 0)] World.init) =
      { file := { myId := 7, nullObject := false, isMemIOFile := true },
        g_ncid := 7,
        trace := [Event.call (Call.nc_create_mem "m.nc" 4097 16) 0,
          Event.call (Call.nc_close_memio 7) 0,
          Event.call (Call.nc_open "a.nc" 0) 0] } := rfl
  refine ⟨h1, rfl, fun h => ?_⟩
  have h2 := congrArg (fun p => p.1.file.nullObject) h
  rw [h1] at h2
  exact absurd h2 (by decide)

/-- C3: whenever `open(path, mode, format)` gets past its implicit close (the handle is Null,
or the library closes the prior session with status 0), the events it adds to the trace contain
exactly one open/create call, and that call is the specified one: `nc_open` for read/write and
`nc_create` for newFile/replace, with flag word `formatBits | modeBit`. -/
theorem open_mode_format_single_call (F : NcFlags) (be : Backend) (filePath : String)
    (fMode : FileMode) (fFormat : FileFormat) (w : World)
    (h : w.file.nullObject = true ∨ (be w.trace (Call.nc_close w.file.myId)).status = 0) :
    ∃ issued st,
      (open_mode_format F be filePath fMode fFormat w).1.trace = w.trace ++ issued ∧
      issued.filter Event.isOpenCreate =
        [Event.call (specCall F filePath fMode fFormat) st] := by
  have hcall : modeFormatCall F filePath (formatBits F fFormat) fMode =
      specCall F filePath fMode fFormat := by
    cases fMode <;> cases fFormat <;> rfl
  have hoc : ∀ st, (Event.call (specCall F filePath fMode fFormat) st).isOpenCreate = true := by
    intro st
    cases fMode <;> rfl
  by_cases hn : w.file.nullObject = true
  · have hex := exec_of_close_ok F be (OpenOp.open_mode_format filePath fMode fFormat) w w
      (closeIfOpen_of_null be w hn)
    simp only [OpenOp.exec, OpenOp.call, hcall] at hex
    exact ⟨_, (be w.trace (specCall F filePath fMode fFormat)).status, hex.2.1, by simp [hoc]⟩
  · have hn' : w.file.nullObject = false := by simpa using hn
    have hs : (be w.trace (Call.nc_close w.file.myId)).status = 0 := by
      rcases h with h | h
      · exact absurd h hn
      · exact h
    have hex := exec_of_close_ok F be (OpenOp.open_mode_format filePath fMode fFormat) w _
      ((closeIfOpen_of_open be w hn').trans (close_of_open_ok be w hn' hs))
    simp only [OpenOp.exec, OpenOp.call, hcall] at hex
    refine ⟨[Event.call (Call.nc_close w.file.myId) 0,
        Event.call (specCall F filePath fMode fFormat)
          (be (w.trace ++ [Event.call (Call.nc_close w.file.myId) 0])
            (specCall F filePath fMode fFormat)).status],
        (be (w.trace ++ [Event.call (Call.nc_close w.file.myId) 0])
            (specCall F filePath fMode fFormat)).status, ?_, ?_⟩
    · rw [hex.2.1, List.append_assoc]
      rfl
    · have hcl : (Event.call (Call.nc_close w.file.myId) 0).isOpenCreate = false := rfl
      simp [List.filter, hoc, hcl]

/-- C3 witness: `open("a.nc", newFile, nc4classic)` on a fresh handle. -/
theorem open_mode_format_single_call_witness :
    (World.init.file.nullObject = true ∨
      (okBackend World.init.trace (Call.nc_close World.init.file.myId)).status = 0) ∧
    ∃ issued st,
      (open_mode_format netcdfFlags okBackend "a.nc" FileMode.newFile FileFormat.nc4classic
        World.init).1.trace = World.init.trace ++ issued ∧
      issued.filter Event.isOpenCreate =
        [Event.call (specCall netcdfFlags "a.nc" FileMode.newFile FileFormat.nc4classic) st] :=
  ⟨Or.inl rfl,
    open_mode_format_single_call netcdfFlags okBackend "a.nc" FileMode.newFile
      FileFormat.nc4classic World.init (Or.inl rfl)⟩

/-- C4: every session-starting function (the four `open` overloads and `create`) adds to the
trace, on a Null handle, only its own open/create call; on a handle that is not Null it first
issues `nc_close` on the previous id, and its open/create call follows only if that close
returned 0.  The open/create call itself is never a close call, so the number of close calls
issued is 1 on a non-Null handle and 0 on a Null one. -/
theorem implicit_close_once_first (F : NcFlags) (be : Backend) (o : OpenOp) (w : World) :
    (∀ st, (Event.call (o.call F) st).isClose = false) ∧
    (o.exec F be w).1.trace = w.trace ++
      (if w.file.nullObject = true then
        [Event.call (o.call F) (be w.trace (o.call F)).status]
      else if (be w.trace (Call.nc_close w.file.myId)).status = 0 then
        [Event.call (Call.nc_close w.file.myId) 0,
          Event.call (o.call F)
            (be (w.trace ++ [Event.call (Call.nc_close w.file.myId) 0]) (o.call F)).status]
      else
        [Event.call (Call.nc_close w.file.myId)
          (be w.trace (Call.nc_close w.file.myId)).status]) ∧
    ((o.exec F be w).1.trace.drop w.trace.length).countP Event.isClose =
      (if w.file.nullObject = true then 0 else 1) := by
  have hnc : ∀ st, (Event.call (o.call F) st).isClose = false :=
    fun st => (call_not_close F o st).1
  have hcl : ∀ st, (Event.call (Call.nc_close w.file.myId) st).isClose = true := fun _ => rfl
  have key : (o.exec F be w).1.trace = w.trace ++
      (if w.file.nullObject = true then
        [Event.call (o.call F) (be w.trace (o.call F)).status]
      else if (be w.trace (Call.nc_close w.file.myId)).status = 0 then
        [Event.call (Call.nc_close w.file.myId) 0,
          Event.call (o.call F)
            (be (w.trace ++ [Event.call (Call.nc_close w.file.myId) 0]) (o.call F)).status]
      else
        [Event.call (Call.nc_close w.file.myId)
          (be w.trace (Call.nc_close w.file.myId)).status]) := by
    by_cases hn : w.file.nullObject = true
    · rw [if_pos hn]
      exact (exec_of_close_ok F be o w w (closeIfOpen_of_null be w hn)).2.1
    · have hn' : w.file.nullObject = false := by simpa using hn
      rw [if_neg hn]
      by_cases hs : (be w.trace (Call.nc_close w.file.myId)).status = 0
      · rw [if_pos hs]
        have hex := exec_of_close_ok F be o w _
          ((closeIfOpen_of_open be w hn').trans (close_of_open_ok be w hn' hs))
        rw [hex.2.1, List.append_assoc]
        rfl
      · rw [if_neg hs]
        rw [exec_of_close_error F be o w _ _
          ((closeIfOpen_of_open be w hn').trans (close_of_open_fail be w hn' hs))]
  refine ⟨hnc, key, ?_⟩
  rw [key, List.drop_left]
  by_cases hn : w.file.nullObject = true
  · simp [hn, hnc]
  · by_cases hs : (be w.trace (Call.nc_close w.file.myId)).status = 0
    · simp [hn, hs, hnc, hcl, List.countP_cons]
    · simp [hn, hs, hcl]

/-- C10: re-opening a handle that is not Null, through any `open` overload or `create`.  If the
implicit close returns 0 and the open/create call returns a nonzero status, the function raises
that status and leaves the handle Null.  If the implicit close returns a nonzero status, the
function raises it and the world is unchanged except for the recorded close call: no
open/create call is issued and the handle is still non-Null with its previous id. -/
theorem reopen_error_atomicity (F : NcFlags) (be : Backend) (o : OpenOp) (w : World)
    (hopen : w.file.nullObject = false) :
    ((be w.trace (Call.nc_close w.file.myId)).status = 0 →
      (be (w.trace ++ [Event.call (Call.nc_close w.file.myId) 0]) (o.call F)).status ≠ 0 →
        (o.exec F be w).2 = Except.error
          { retCode :=
              (be (w.trace ++ [Event.call (Call.nc_close w.file.myId) 0]) (o.call F)).status } ∧
        (o.exec F be w).1.file.nullObject = true) ∧
    ((be w.trace (Call.nc_close w.file.myId)).status ≠ 0 →
      (o.exec F be w).2 = Except.error
          { retCode := (be w.trace (Call.nc_close w.file.myId)).status } ∧
      (o.exec F be w).1 =
        { w with trace := w.trace ++
            [Event.call (Call.nc_close w.file.myId)
              (be w.trace (Call.nc_close w.file.myId)).status] } ∧
      (o.exec F be w).1.file.nullObject = false ∧
      (o.exec F be w).1.file.myId = w.file.myId) := by
  constructor
  · intro hs ho
    have hex := exec_of_close_ok F be o w _
      ((closeIfOpen_of_open be w hopen).trans (close_of_open_ok be w hopen hs))
    refine ⟨?_, ?_⟩
    · rw [hex.1]
      exact ncCheck_ne_zero _ ho
    · rw [hex.2.2.1, if_neg ho]
  · intro hs
    rw [exec_of_close_error F be o w _ _
      ((closeIfOpen_of_open be w hopen).trans (close_of_open_fail be w hopen hs))]
    exact ⟨rfl, rfl, hopen, rfl⟩

/-- C10 witness: `create("b.nc", 0)` on an open disk handle, once with a library whose create
fails after a successful close, once with a library whose close fails. -/
theorem reopen_error_atomicity_witness :
    diskWorld.file.nullObject = false ∧
    ((OpenOp.create "b.nc" 0).exec netcdfFlags openFailBackend diskWorld).2 =
      Except.error { retCode := -33 } ∧
    ((OpenOp.create "b.nc" 0).exec netcdfFlags openFailBackend diskWorld).1.file.nullObject
      = true ∧
    ((OpenOp.create "b.nc" 0).exec netcdfFlags closeFailBackend diskWorld).2 =
      Except.error { retCode := -33 } ∧
    ((OpenOp.create "b.nc" 0).exec netcdfFlags closeFailBackend diskWorld).1.file.nullObject
      = false ∧
    ((OpenOp.create "b.nc" 0).exec netcdfFlags closeFailBackend diskWorld).1.file.myId = 7 :=
  have h1 := (reopen_error_atomicity netcdfFlags openFailBackend (OpenOp.create "b.nc" 0)
    diskWorld rfl).1 rfl (by decide)
  have h2 := (reopen_error_atomicity netcdfFlags closeFailBackend (OpenOp.create "b.nc" 0)
    diskWorld rfl).2 (by decide)
  ⟨rfl, h1.1, h1.2, h2.1, h2.2.2.1, h2.2.2.2⟩

/-- C6: for every handle state and every library, the destructor returns normally.  On a Null
handle it does nothing; on an open handle it issues its one closing call (`nc_close`, or
`nc_close_memio` when the handle is marked memory-backed), and a nonzero status of that call is
followed only by a line on `cerr`, with the other fields of the world untouched. -/
theorem destructor_never_throws (be : Backend) (w : World) :
    (destructor be w).2 = Except.ok () ∧
    (destructor be w).1.trace = w.trace ++
      (if w.file.nullObject = true then []
      else if (be w.trace (closingCall w)).status = 0 then
        Event.call (closingCall w) 0 ::
          (if w.file.isMemIOFile = true then [Event.free (be w.trace (closingCall w)).memory]
           else [])
      else
        [Event.call (closingCall w) (be w.trace (closingCall w)).status,
          Event.cerr { retCode := (be w.trace (closingCall w)).status }]) := by
  by_cases hn : w.file.nullObject = true
  · rw [destructor_of_null be w hn]
    simp [hn]
  · have hn' : w.file.nullObject = false := by simpa using hn
    by_cases hs : (be w.trace (closingCall w)).status = 0
    · rw [destructor_of_open_ok be w hn' hs]
      simp [hn', hs]
    · rw [destructor_of_open_fail be w hn' hs]
      simp [hn', hs]

/-- C5 (evaluation at the failing input): `open(path, flags)` never changes the
memory-backed mark, so a handle that had a memory-backed session, closed it
with `close_memio()`, and then ran a successful `open("a.nc", 0)` is open but still marked
memory-backed, and its destructor takes the memory path: it issues `nc_close_memio` on the disk
session and frees the pointer that call hands back. -/
theorem open_flags_after_memio_still_marked :
    (∀ (be : Backend) (filePath : String) (ncFileFlags : Int) (w : World),
      (open_flags be filePath ncFileFlags w).1.file.isMemIOFile = w.file.isMemIOFile) ∧
    (run netcdfFlags okBackend
      [Op.start (OpenOp.open_memio "m.nc" FileMode.newFile FileFormat.nc4 16 0 false),
        Op.close_memio, Op.start (OpenOp.open_flags "a.nc" 0)] World.init).file =
      { myId := 7, nullObject := false, isMemIOFile := true } ∧
    (destructor okBackend (run netcdfFlags okBackend
      [Op.start (OpenOp.open_memio "m.nc" FileMode.newFile FileFormat.nc4 16 0 false),
        Op.close_memio, Op.start (OpenOp.open_flags "a.nc" 0)] World.init)).1.trace =
      [Event.call (Call.nc_create_mem "m.nc" 4097 16) 0,
        Event.call (Call.nc_close_memio 7) 0,
        Event.call (Call.nc_open "a.nc" 0) 0,
        Event.call (Call.nc_close_memio 7) 0,
        Event.free 4096] := by
  exact ⟨open_flags_keeps_mark, rfl, rfl⟩

/-- C7 (evaluation at the failing input): the memory overload with mode `read` behaves exactly
as with mode `write`, for every format and every state; with the real flag values,
`open("m.nc", read, nc4, 16, 8192, true)` issues `nc_open_memio` with flag word
`4097 = NC_NETCDF4 | NC_WRITE`, not the read-only word `4096 = NC_NETCDF4 | NC_NOWRITE`. -/
theorem open_memio_read_passes_write_flag :
    (∀ (F : NcFlags) (be : Backend) (path : String) (fFormat : FileFormat) (size memory : Nat)
        (memory_locked : Bool) (w : World),
      open_memio F be path FileMode.read fFormat size memory memory_locked w =
        open_memio F be path FileMode.write fFormat size memory memory_locked w) ∧
    (open_memio netcdfFlags okBackend "m.nc" FileMode.read FileFormat.nc4 16 8192 true
        World.init).1.trace =
      [Event.call (Call.nc_open_memio "m.nc" 4097 16 8192 1) 0] ∧
    Int.lor (formatBits netcdfFlags FileFormat.nc4) netcdfFlags.NC_WRITE = 4097 ∧
    Int.lor (formatBits netcdfFlags FileFormat.nc4) netcdfFlags.NC_NOWRITE = 4096 := by
  refine ⟨fun F be path fFormat size memory memory_locked w => rfl, rfl, rfl, rfl⟩

/-- C8 (evaluation at the failing input): a handle opened on the caller's buffer at address
`8192` with `memory_locked = true` and destroyed while the session is open: the library hands
the caller's buffer back from `nc_close_memio`, and the destructor frees it. -/
theorem destructor_frees_locked_buffer :
    (destructor lockedBackend
      (open_memio netcdfFlags lockedBackend "m.nc" FileMode.write FileFormat.nc4 16 8192 true
        World.init).1).1.trace =
      [Event.call (Call.nc_open_memio "m.nc" 4097 16 8192 1) 0,
        Event.call (Call.nc_close_memio 7) 0,
        Event.free 8192] := by
  rfl

/-- C9 (counterexample): after a successful `open("a.nc", 0)` and a successful `close()` on a
fresh handle, the handle is Null but its id is still the closed session's id `7`, not the unset
sentinel `-1`: "isNull iff id = unset" fails in a reachable state. -/
theorem close_keeps_id :
    (run netcdfFlags okBackend [Op.start (OpenOp.open_flags "a.nc" 0), Op.close]
      World.init).file = { myId := 7, nullObject := true, isMemIOFile := false } ∧
    ¬ ((run netcdfFlags okBackend [Op.start (OpenOp.open_flags "a.nc" 0), Op.close]
          World.init).file.nullObject = true ↔
        (run netcdfFlags okBackend [Op.start (OpenOp.open_flags "a.nc" 0), Op.close]
          World.init).file.myId = -1) := by
  refine ⟨rfl, fun h => ?_⟩
  have h7 : (run netcdfFlags okBackend [Op.start (OpenOp.open_flags "a.nc" 0), Op.close]
      World.init).file.myId = 7 := rfl
  have := h.1 rfl
  rw [h7] at this
  exact absurd this (by decide)

/-- C9 (amended): in every state reachable from a fresh Null handle by `open`, `create`,
`close`, `close_memio`, `sync` and `enddef`, with a library whose successful open/create calls
store an id other than `-1`: the handle is Null iff the tracked id `g_ncid` is the unset
sentinel; while the handle is open `g_ncid` equals its id; an id field equal to the sentinel
implies the handle is Null (the converse fails, the id field is kept on close); and a `close()`
that returns normally, or a `close_memio()` that returns success, leaves the handle Null with
`g_ncid = -1`. -/
theorem reachable_tracking_invariant (F : NcFlags) (be : Backend) (ops : List Op)
    (hbe : be.issuesValidIds) :
    ((run F be ops World.init).file.nullObject = true ↔
      (run F be ops World.init).g_ncid = -1) ∧
    ((run F be ops World.init).file.nullObject = false →
      (run F be ops World.init).g_ncid = (run F be ops World.init).file.myId) ∧
    ((run F be ops World.init).file.myId = -1 →
      (run F be ops World.init).file.nullObject = true) ∧
    ((close be (run F be ops World.init)).2 = Except.ok () →
      (close be (run F be ops World.init)).1.file.nullObject = true ∧
      (close be (run F be ops World.init)).1.g_ncid = -1) ∧
    (∀ size memory,
      (close_memio be (run F be ops World.init)).2 = Except.ok (true, size, memory) →
        (close_memio be (run F be ops World.init)).1.file.nullObject = true ∧
        (close_memio be (run F be ops World.init)).1.g_ncid = -1) := by
  have ht := run_tracked F be ops
  have hv := run_validId F be hbe ops
  unfold World.tracked at ht
  unfold World.validId at hv
  have hid : (run F be ops World.init).file.myId = -1 →
      (run F be ops World.init).file.nullObject = true := by
    intro h
    by_contra hn
    exact hv (by simpa using hn) h
  refine ⟨⟨fun h => by rw [ht, if_pos h], fun h => ?_⟩, fun h => ?_, hid, fun h => ?_,
    fun size memory h => ?_⟩
  · by_contra hn
    rw [ht, if_neg hn] at h
    exact hn (hid h)
  · rw [ht]
    simp [h]
  · have hn := close_ok_null be _ h
    have hc := close_tracked be _ (run_tracked F be ops)
    unfold World.tracked at hc
    rw [if_pos hn] at hc
    exact ⟨hn, hc⟩
  · have hn := close_memio_ok_null be _ size memory h
    have hc := close_memio_tracked be _ (run_tracked F be ops)
    unfold World.tracked at hc
    rw [if_pos hn] at hc
    exact ⟨hn, hc⟩

/-- C9 witness: the always-succeeding library hands out the id `7`; the state after an
`open` followed by a `close`. -/
theorem reachable_tracking_invariant_witness :
    okBackend.issuesValidIds ∧
    ((run netcdfFlags okBackend [Op.start (OpenOp.open_flags "a.nc" 0), Op.close]
        World.init).file.nullObject = true ↔
      (run netcdfFlags okBackend [Op.start (OpenOp.open_flags "a.nc" 0), Op.close]
        World.init).g_ncid = -1) :=
  ⟨fun _ _ _ _ => ⟨7, rfl, by decide⟩,
    (reachable_tracking_invariant netcdfFlags okBackend
      [Op.start (OpenOp.open_flags "a.nc" 0), Op.close]
      (fun _ _ _ _ => ⟨7, rfl, by decide⟩)).1⟩

end netCDF
